import Mathlib

/-!
Verification of the superblock-probing core of direct-csi (`pkg/dev/fs.go`).

The Go code is shallowly embedded.  A block device, together with the
outcome of the OS calls a probe performs on it, is modelled by `Device`:
`openFails` (resp. `seekFails`) records that `os.OpenFile` (resp. the
`File.Seek` call itself, beyond the negative-offset case which is modelled
explicitly) fails at the OS boundary, and `bytes` is the content of the
device starting at byte 0.  Go's `(*FSInfo, error)` return pairs are
embedded as `Option FSInfo × Option DevError`; Go compares the sentinel
errors `ErrNotEXT4`, `ErrNotXFS`, `ErrNoFS` by identity, which is embedded
as structural equality of `DevError` constructors.  Machine integers are
embedded as `Nat` with explicit reduction modulo `2 ^ 64` (resp. `2 ^ 32`)
at the points where Go's `uint64` (resp. `uint32`) arithmetic can wrap.
-/

namespace DirectCSI

set_option maxRecDepth 100000

/-- The six error outcomes the probing core can produce.  `openError`,
`seekError` and `readError` stand for the (pairwise non-sentinel) OS-level
errors returned by `os.OpenFile`, `File.Seek` and `binary.Read`; the last
three are the package's sentinel error values. -/
inductive DevError where
  | openError
  | seekError
  | readError
  | notEXT4
  | notXFS
  | noFS
  deriving DecidableEq

/-- The sentinel `var ErrNoFS = errors.New("No FS found")` of fs.go. -/
def ErrNoFS : DevError := DevError.noFS

/-- Modelled from the spec: the EXT4 decoder's typed "not this format"
sentinel, referenced by `fs.go` but declared in a file outside `src/`. -/
def ErrNotEXT4 : DevError := DevError.notEXT4

/-- Modelled from the spec: the XFS decoder's typed "not this format"
sentinel, referenced by `fs.go` but declared in a file outside `src/`. -/
def ErrNotXFS : DevError := DevError.notXFS

/-- The `type FSType string` of fs.go. -/
abbrev FSType := String

/-- Modelled from the spec: the enumerated tag for the EXT4 format
(declared outside `src/`). -/
def FSTypeEXT4 : FSType := "ext4"

/-- Modelled from the spec: the enumerated tag for the XFS format
(declared outside `src/`). -/
def FSTypeXFS : FSType := "xfs"

/-- Modelled from the spec: a mount record, populated only by an external
collaborator (declared outside `src/`); its fields are irrelevant to this
core, which only ever constructs the empty list of them. -/
structure Mount where
  mountPoint : String
  deriving DecidableEq

/-- The `FSInfo` result structure of fs.go.  The three capacity fields are Go `uint64` values,
embedded as `Nat` that the constructing code keeps below `2 ^ 64`. -/
structure FSInfo where
  FSType : FSType
  TotalCapacity : Nat
  FreeCapacity : Nat
  FSBlockSize : Nat
  Mounts : List Mount
  deriving DecidableEq

/-- A block device as seen by one probe call: whether opening it fails,
whether the (non-negative) seek on it fails, and its byte content. -/
structure Device where
  openFails : Bool
  seekFails : Bool
  bytes : List Nat
  deriving DecidableEq

/-- Byte `i` of a buffer (0 past the end, as `binary.Read` never looks
past the checked length; values are reduced mod 256 since a device holds
bytes). -/
def byteAt (buf : List Nat) (i : Nat) : Nat := buf.getD i 0 % 256

/-- Little-endian 16-bit read at offset `i`. -/
def readU16LE (buf : List Nat) (i : Nat) : Nat :=
  byteAt buf i + 256 * byteAt buf (i + 1)

/-- Little-endian 32-bit read at offset `i`. -/
def readU32LE (buf : List Nat) (i : Nat) : Nat :=
  byteAt buf i + 256 * byteAt buf (i + 1) + 256 ^ 2 * byteAt buf (i + 2)
    + 256 ^ 3 * byteAt buf (i + 3)

/-- Big-endian 32-bit read at offset `i`. -/
def readU32BE (buf : List Nat) (i : Nat) : Nat :=
  256 ^ 3 * byteAt buf i + 256 ^ 2 * byteAt buf (i + 1)
    + 256 * byteAt buf (i + 2) + byteAt buf (i + 3)

/-- Big-endian 64-bit read at offset `i`. -/
def readU64BE (buf : List Nat) (i : Nat) : Nat :=
  256 ^ 7 * byteAt buf i + 256 ^ 6 * byteAt buf (i + 1)
    + 256 ^ 5 * byteAt buf (i + 2) + 256 ^ 4 * byteAt buf (i + 3)
    + 256 ^ 3 * byteAt buf (i + 4) + 256 ^ 2 * byteAt buf (i + 5)
    + 256 * byteAt buf (i + 6) + byteAt buf (i + 7)

/-- Modelled from the spec: the fields of the fixed-size, little-endian
EXT4 on-disk superblock mirror that `fs.go` uses (`EXT4SuperBlock` is
declared outside `src/`).  Per the spec the structure carries, at the
ext4 specification's documented byte offsets, the total block count
(u32 at 4), the free block count (u32 at 12), the log2 block-size
exponent (u32 at 24) and the magic (u16 at 56). -/
structure EXT4SuperBlock where
  NumBlocks : Nat
  FreeBlocks : Nat
  LogBlockSize : Nat
  Magic : Nat
  deriving DecidableEq

/-- The byte size of the fixed EXT4 superblock mirror: its last field is
the u16 magic at offset 56, so `binary.Read` consumes 58 bytes. -/
def ext4SuperBlockSize : Nat := 58

/-- Little-endian decode of the EXT4 superblock mirror (the
`binary.Read(devFile, binary.LittleEndian, ext4)` step of fs.go). -/
def decodeEXT4 (buf : List Nat) : EXT4SuperBlock :=
  { NumBlocks := readU32LE buf 4
    FreeBlocks := readU32LE buf 12
    LogBlockSize := readU32LE buf 24
    Magic := readU16LE buf 56 }

/-- Modelled from the spec: `(*EXT4SuperBlock).Is` (declared outside
`src/`) validates the magic field against the EXT2/3/4 magic `0xEF53`. -/
def EXT4SuperBlock.Is (sb : EXT4SuperBlock) : Bool := sb.Magic == 0xEF53

/-- Modelled from the spec: the fields of the fixed-size, big-endian XFS
on-disk superblock mirror that `fs.go` uses (`XFSSuperBlock` is declared
outside `src/`): the 4-byte magic (u32 at 0), the directly stored block
size (u32 at 4), the total block count (u64 at 8) and the free block
count (u64 at 144), at the xfs specification's documented offsets. -/
structure XFSSuperBlock where
  MagicNum : Nat
  BlockSize : Nat
  TotalBlocks : Nat
  FreeBlocks : Nat
  deriving DecidableEq

/-- The byte size of the fixed XFS superblock mirror: its last field is
the u64 free-block count at offset 144, so `binary.Read` consumes 152
bytes. -/
def xfsSuperBlockSize : Nat := 152

/-- Big-endian decode of the XFS superblock mirror (the
`binary.Read(devFile, binary.BigEndian, xfs)` step of fs.go). -/
def decodeXFS (buf : List Nat) : XFSSuperBlock :=
  { MagicNum := readU32BE buf 0
    BlockSize := readU32BE buf 4
    TotalBlocks := readU64BE buf 8
    FreeBlocks := readU64BE buf 144 }

/-- Modelled from the spec: `(*XFSSuperBlock).Is` (declared outside
`src/`) validates the magic against the numeric form `0x58465342` of the
ASCII signature "XFSB". -/
def XFSSuperBlock.Is (sb : XFSSuperBlock) : Bool := sb.MagicNum == 0x58465342

/-- The byte position handed to `devFile.Seek(int64(logicalBlockSize*offsetBlocks),
os.SEEK_CUR)` in fs.go: the two `uint64` arguments are multiplied with
wraparound modulo `2 ^ 64` and the result is reinterpreted as a signed
`int64` (two's complement), so products in `[2 ^ 63, 2 ^ 64)` become
negative seek offsets. -/
def seekTarget (logicalBlockSize offsetBlocks : Nat) : Int :=
  let p : Nat := logicalBlockSize * offsetBlocks % 2 ^ 64
  if p < 2 ^ 63 then (p : Int) else (p : Int) - 2 ^ 64

/-- The bytes of the device visible to `binary.Read` after the seek (the
file position is `seekTarget` since the handle is freshly opened at
position 0). -/
def probedBytes (d : Device) (logicalBlockSize offsetBlocks : Nat) : List Nat :=
  d.bytes.drop (seekTarget logicalBlockSize offsetBlocks).toNat

/-- The expression `uint64(math.Pow(2, float64(10+ext4.LogBlockSize)))` of fs.go.  The
`10 + LogBlockSize` addition is Go `uint32` arithmetic, hence the mod
`2 ^ 32`.  For exponents up to 63 both `math.Pow(2, e)` and the
conversion to `uint64` are exact, so the value is `2 ^ e`; for larger
exponents the converted float exceeds the `uint64` range and the Go
specification makes the result implementation-dependent — it is modelled
here as the amd64 behaviour, which yields 0 (no `uint64` value can equal
the mathematical `2 ^ e` there in any case). -/
def ext4FsBlockSize (logBlockSize : Nat) : Nat :=
  let e := (10 + logBlockSize) % 2 ^ 32
  if e ≤ 63 then 2 ^ e else 0

/-- The part of `ProbeFSEXT4` (fs.go) that follows the successful seek:
`binary.Read` of the 58-byte mirror (truncation is the hard read error),
the `ext4.Is()` magic validation (`ErrNotEXT4` on mismatch), and the
construction of the `FSInfo` with the derived block size and the `uint64`
capacity products. -/
def ext4DecodeFrom (buf : List Nat) : Option FSInfo × Option DevError :=
  if buf.length < ext4SuperBlockSize then (none, some DevError.readError)
  else
    let ext4 := decodeEXT4 buf
    if ext4.Is then
      let fsBlockSize := ext4FsBlockSize ext4.LogBlockSize
      (some { FSType := FSTypeEXT4
              FSBlockSize := fsBlockSize
              TotalCapacity := ext4.NumBlocks * fsBlockSize % 2 ^ 64
              FreeCapacity := ext4.FreeBlocks * fsBlockSize % 2 ^ 64
              Mounts := [] }, none)
    else (none, some ErrNotEXT4)

/-- The function `ProbeFSEXT4` of fs.go: open the device read-only, seek forward by
`int64(logicalBlockSize*offsetBlocks)` from position 0 (a negative wrapped
offset makes the seek itself fail), then decode. -/
def ProbeFSEXT4 (d : Device) (logicalBlockSize offsetBlocks : Nat) :
    Option FSInfo × Option DevError :=
  if d.openFails then (none, some DevError.openError)
  else if d.seekFails then (none, some DevError.seekError)
  else if seekTarget logicalBlockSize offsetBlocks < 0 then
    (none, some DevError.seekError)
  else ext4DecodeFrom (probedBytes d logicalBlockSize offsetBlocks)

/-- The part of `ProbeFSXFS` (fs.go) that follows the successful seek:
`binary.Read` of the 152-byte mirror, the `xfs.Is()` magic validation
(`ErrNotXFS` on mismatch), and the construction of the `FSInfo` with the
directly stored block size and the `uint64` capacity products. -/
def xfsDecodeFrom (buf : List Nat) : Option FSInfo × Option DevError :=
  if buf.length < xfsSuperBlockSize then (none, some DevError.readError)
  else
    let xfs := decodeXFS buf
    if xfs.Is then
      (some { FSType := FSTypeXFS
              FSBlockSize := xfs.BlockSize
              TotalCapacity := xfs.TotalBlocks * xfs.BlockSize % 2 ^ 64
              FreeCapacity := xfs.FreeBlocks * xfs.BlockSize % 2 ^ 64
              Mounts := [] }, none)
    else (none, some ErrNotXFS)

/-- The function `ProbeFSXFS` of fs.go: same open/seek contract as `ProbeFSEXT4`,
big-endian decode. -/
def ProbeFSXFS (d : Device) (logicalBlockSize offsetBlocks : Nat) :
    Option FSInfo × Option DevError :=
  if d.openFails then (none, some DevError.openError)
  else if d.seekFails then (none, some DevError.seekError)
  else if seekTarget logicalBlockSize offsetBlocks < 0 then
    (none, some DevError.seekError)
  else xfsDecodeFrom (probedBytes d logicalBlockSize offsetBlocks)

/-- The dispatcher `ProbeFS` of fs.go, line by line: try EXT4; a non-`ErrNotEXT4` error
returns immediately; a non-nil result returns immediately; then the same
for XFS; otherwise `ErrNoFS`. -/
def ProbeFS (d : Device) (logicalBlockSize offsetBlocks : Nat) :
    Option FSInfo × Option DevError :=
  let r := ProbeFSEXT4 d logicalBlockSize offsetBlocks
  if r.2 ≠ none ∧ r.2 ≠ some ErrNotEXT4 then (none, r.2)
  else if r.1 ≠ none then (r.1, none)
  else
    let r2 := ProbeFSXFS d logicalBlockSize offsetBlocks
    if r2.2 ≠ none ∧ r2.2 ≠ some ErrNotXFS then (none, r2.2)
    else if r2.1 ≠ none then (r2.1, none)
    else (none, some ErrNoFS)

/-- The decoders, in the role of trace entries. -/
inductive Decoder where
  | ext4
  | xfs
  deriving DecidableEq

/-- The dispatcher `ProbeFS` instrumented with the list of decoders it invokes, in
invocation order; the control flow is that of `ProbeFS` verbatim, with
`Decoder.ext4` recorded unconditionally (the EXT4 probe is the first
statement of the function) and `Decoder.xfs` recorded exactly on the
paths that reach the `ProbeFSXFS` call. -/
def ProbeFSTrace (d : Device) (logicalBlockSize offsetBlocks : Nat) :
    (Option FSInfo × Option DevError) × List Decoder :=
  let r := ProbeFSEXT4 d logicalBlockSize offsetBlocks
  if r.2 ≠ none ∧ r.2 ≠ some ErrNotEXT4 then ((none, r.2), [Decoder.ext4])
  else if r.1 ≠ none then ((r.1, none), [Decoder.ext4])
  else
    let r2 := ProbeFSXFS d logicalBlockSize offsetBlocks
    if r2.2 ≠ none ∧ r2.2 ≠ some ErrNotXFS then
      ((none, r2.2), [Decoder.ext4, Decoder.xfs])
    else if r2.1 ≠ none then ((r2.1, none), [Decoder.ext4, Decoder.xfs])
    else ((none, some ErrNoFS), [Decoder.ext4, Decoder.xfs])

/-- The magic registry of fs.go: the const block, in source order, with
the Go constant names as strings and their exact values. -/
def magicRegistry : List (String × Nat) :=
  [("None", 0x0),
   ("ADFS_SUPER_MAGIC", 0xadf5),
   ("AFFS_SUPER_MAGIC", 0xadff),
   ("AFS_SUPER_MAGIC", 0x5346414f),
   ("ANON_INODE_FS_MAGIC", 0x09041934),
   ("AUTOFS_SUPER_MAGIC", 0x0187),
   ("BDEVFS_MAGIC", 0x62646576),
   ("BEFS_SUPER_MAGIC", 0x42465331),
   ("BFS_MAGIC", 0x1badface),
   ("BINFMTFS_MAGIC", 0x42494e4d),
   ("BPF_FS_MAGIC", 0xcafe4a11),
   ("BTRFS_SUPER_MAGIC", 0x9123683e),
   ("BTRFS_TEST_MAGIC", 0x73727279),
   ("CGROUP_SUPER_MAGIC", 0x27e0eb),
   ("CGROUP2_SUPER_MAGIC", 0x63677270),
   ("CIFS_MAGIC_NUMBER", 0xff534d42),
   ("CODA_SUPER_MAGIC", 0x73757245),
   ("COH_SUPER_MAGIC", 0x012ff7b7),
   ("CRAMFS_MAGIC", 0x28cd3d45),
   ("DEBUGFS_MAGIC", 0x64626720),
   ("DEVFS_SUPER_MAGIC", 0x1373),
   ("DEVPTS_SUPER_MAGIC", 0x1cd1),
   ("ECRYPTFS_SUPER_MAGIC", 0xf15f),
   ("EFIVARFS_MAGIC", 0xde5e81e4),
   ("EFS_SUPER_MAGIC", 0x00414a53),
   ("EXT_SUPER_MAGIC", 0x137d),
   ("EXT2_OLD_SUPER_MAGIC", 0xef51),
   ("EXT2_SUPER_MAGIC", 0xef53),
   ("EXT3_SUPER_MAGIC", 0xef53),
   ("EXT4_SUPER_MAGIC", 0xef53),
   ("F2FS_SUPER_MAGIC", 0xf2f52010),
   ("FUSE_SUPER_MAGIC", 0x65735546),
   ("FUTEXFS_SUPER_MAGIC", 0xbad1dea),
   ("HFS_SUPER_MAGIC", 0x4244),
   ("HOSTFS_SUPER_MAGIC", 0x00c0ffee),
   ("HPFS_SUPER_MAGIC", 0xf995e849),
   ("HUGETLBFS_MAGIC", 0x958458f6),
   ("ISOFS_SUPER_MAGIC", 0x9660),
   ("JFFS2_SUPER_MAGIC", 0x72b6),
   ("JFS_SUPER_MAGIC", 0x3153464a),
   ("MINIX_SUPER_MAGIC", 0x137f),
   ("MINIX_SUPER_MAGIC2", 0x138f),
   ("MINIX2_SUPER_MAGIC", 0x2468),
   ("MINIX2_SUPER_MAGIC2", 0x2478),
   ("MINIX3_SUPER_MAGIC", 0x4d5a),
   ("MQUEUE_MAGIC", 0x19800202),
   ("MSDOS_SUPER_MAGIC", 0x4d44),
   ("MTD_INODE_FS_MAGIC", 0x11307854),
   ("NCP_SUPER_MAGIC", 0x564c),
   ("NFS_SUPER_MAGIC", 0x6969),
   ("NILFS_SUPER_MAGIC", 0x3434),
   ("NSFS_MAGIC", 0x6e736673),
   ("NTFS_SB_MAGIC", 0x5346544e),
   ("OCFS2_SUPER_MAGIC", 0x7461636f),
   ("OPENPROM_SUPER_MAGIC", 0x9fa1),
   ("OVERLAYFS_SUPER_MAGIC", 0x794c7630),
   ("PIPEFS_MAGIC", 0x50495045),
   ("PROC_SUPER_MAGIC", 0x9fa0),
   ("PSTOREFS_MAGIC", 0x6165676c),
   ("QNX4_SUPER_MAGIC", 0x002f),
   ("QNX6_SUPER_MAGIC", 0x68191122),
   ("RAMFS_MAGIC", 0x858458f6),
   ("REISERFS_SUPER_MAGIC", 0x52654973),
   ("ROMFS_MAGIC", 0x7275),
   ("SECURITYFS_MAGIC", 0x73636673),
   ("SELINUX_MAGIC", 0xf97cff8c),
   ("SMACK_MAGIC", 0x43415d53),
   ("SMB_SUPER_MAGIC", 0x517b),
   ("SMB2_MAGIC_NUMBER", 0xfe534d42),
   ("SOCKFS_MAGIC", 0x534f434b),
   ("SQUASHFS_MAGIC", 0x73717368),
   ("SYSFS_MAGIC", 0x62656572),
   ("SYSV2_SUPER_MAGIC", 0x012ff7b6),
   ("SYSV4_SUPER_MAGIC", 0x012ff7b5),
   ("TMPFS_MAGIC", 0x01021994),
   ("TRACEFS_MAGIC", 0x74726163),
   ("UDF_SUPER_MAGIC", 0x15013346),
   ("UFS_MAGIC", 0x00011954),
   ("USBDEVICE_SUPER_MAGIC", 0x9fa2),
   ("V9FS_MAGIC", 0x01021997),
   ("VXFS_SUPER_MAGIC", 0xa501fcf5),
   ("XENFS_SUPER_MAGIC", 0xabba1974),
   ("XENIX_SUPER_MAGIC", 0x012ff7b4),
   ("XFS_SUPER_MAGIC", 0x58465342),
   ("_XIAFS_SUPER_MAGIC", 0x012fd16d)]

/-- All symbolic names the registry assigns to a magic value (absence is
the empty list, never an error). -/
def magicLookup (v : Nat) : List String :=
  (magicRegistry.filter (fun e => e.2 == v)).map (fun e => e.1)

/-- The value the registry stores under a symbolic name. -/
def magicValueOf (s : String) : Option Nat :=
  (magicRegistry.find? (fun e => e.1 == s)).map (fun e => e.2)

/-- The numeric form of a 4-byte ASCII signature, first character most
significant. -/
def asciiMagic (a b c d : Char) : Nat :=
  ((a.toNat * 256 + b.toNat) * 256 + c.toNat) * 256 + d.toNat

/-- A Go `(*FSInfo, error)` pair is well formed when exactly one side is
non-nil. -/
def wellFormed (r : Option FSInfo × Option DevError) : Prop :=
  (r.1 ≠ none ∧ r.2 = none) ∨ (r.1 = none ∧ r.2 ≠ none)

/-! ### Concrete device images for the witnesses

Serializers for building the on-disk byte images the witness devices use;
they are the inverses of the `readU*` readers. -/

/-- Little-endian 16-bit serialization. -/
def u16le (v : Nat) : List Nat := [v % 256, v / 256 % 256]

/-- Little-endian 32-bit serialization. -/
def u32le (v : Nat) : List Nat :=
  [v % 256, v / 256 % 256, v / 256 ^ 2 % 256, v / 256 ^ 3 % 256]

/-- Big-endian 32-bit serialization. -/
def u32be (v : Nat) : List Nat :=
  [v / 256 ^ 3 % 256, v / 256 ^ 2 % 256, v / 256 % 256, v % 256]

/-- Big-endian 64-bit serialization. -/
def u64be (v : Nat) : List Nat :=
  [v / 256 ^ 7 % 256, v / 256 ^ 6 % 256, v / 256 ^ 5 % 256, v / 256 ^ 4 % 256,
   v / 256 ^ 3 % 256, v / 256 ^ 2 % 256, v / 256 % 256, v % 256]

/-- A 58-byte device image carrying a valid EXT4 superblock mirror with
the given block counts and block-size exponent. -/
def ext4Image (numBlocks freeBlocks logBlockSize : Nat) : List Nat :=
  List.replicate 4 0 ++ u32le numBlocks ++ List.replicate 4 0 ++ u32le freeBlocks
    ++ List.replicate 8 0 ++ u32le logBlockSize ++ List.replicate 28 0 ++ u16le 0xEF53

/-- A 152-byte device image carrying a valid XFS superblock mirror with
the given block size and block counts. -/
def xfsImage (blockSize totalBlocks freeBlocks : Nat) : List Nat :=
  u32be 0x58465342 ++ u32be blockSize ++ u64be totalBlocks
    ++ List.replicate 128 0 ++ u64be freeBlocks

/-- A healthy device holding an EXT4 superblock (5 blocks, 1 free,
exponent 1). -/
def ext4FirstDev : Device := ⟨false, false, ext4Image 5 1 1⟩

/-- The probe result for `ext4FirstDev`. -/
def ext4FirstInfo : FSInfo :=
  { FSType := FSTypeEXT4, TotalCapacity := 10240, FreeCapacity := 2048
    FSBlockSize := 2048, Mounts := [] }

/-- A device whose `os.OpenFile` fails. -/
def openFailDev : Device := ⟨true, false, []⟩

/-- A readable 152-byte device matching neither format. -/
def unknownDev : Device := ⟨false, false, List.replicate 152 0⟩

/-- A healthy device holding an EXT4 superblock with exponent 2. -/
def ext4Log2Dev : Device := ⟨false, false, ext4Image 100 50 2⟩

/-- The probe result for `ext4Log2Dev`. -/
def ext4Log2Info : FSInfo :=
  { FSType := FSTypeEXT4, TotalCapacity := 409600, FreeCapacity := 204800
    FSBlockSize := 4096, Mounts := [] }

/-- A healthy device holding an EXT4 superblock with exponent 54, for
which `2 ^ (10 + 54) = 2 ^ 64` exceeds the `uint64` range. -/
def ext4OverflowDev : Device := ⟨false, false, ext4Image 0 0 54⟩

/-- The probe result for `ext4OverflowDev`. -/
def ext4OverflowInfo : FSInfo :=
  { FSType := FSTypeEXT4, TotalCapacity := 0, FreeCapacity := 0
    FSBlockSize := 0, Mounts := [] }

/-- A healthy device holding an XFS superblock with block size 4096 and
1000 total blocks. -/
def xfsSampleDev : Device := ⟨false, false, xfsImage 4096 1000 10⟩

/-- The probe result for `xfsSampleDev`. -/
def xfsSampleInfo : FSInfo :=
  { FSType := FSTypeXFS, TotalCapacity := 4096000, FreeCapacity := 40960
    FSBlockSize := 4096, Mounts := [] }

/-- A healthy device holding an XFS superblock whose capacity product
`2 ^ 61 * 16 = 2 ^ 65` wraps around the `uint64` range. -/
def xfsOverflowDev : Device := ⟨false, false, xfsImage 16 (2 ^ 61) 0⟩

/-- The probe result for `xfsOverflowDev`. -/
def xfsOverflowInfo : FSInfo :=
  { FSType := FSTypeXFS, TotalCapacity := 0, FreeCapacity := 0
    FSBlockSize := 16, Mounts := [] }

/-- A readable device of only 10 bytes: shorter than either superblock
structure. -/
def shortDev : Device := ⟨false, false, List.replicate 10 0⟩

/-- A healthy empty device, used to instantiate the seek contract. -/
def seekSmallDev : Device := ⟨false, false, []⟩

/-- A 58-byte device with a valid EXT4 superblock at byte 0 (1 block,
1 free, exponent 0): a probe that had really sought `2 ^ 64` bytes
forward could never decode it. -/
def seekWrapDev : Device := ⟨false, false, ext4Image 1 1 0⟩

/-- The probe result for `seekWrapDev`. -/
def seekWrapInfo : FSInfo :=
  { FSType := FSTypeEXT4, TotalCapacity := 1024, FreeCapacity := 1024
    FSBlockSize := 1024, Mounts := [] }

/-- A healthy device holding an XFS superblock (block size 512, 8 total,
4 free). -/
def xfsMountsDev : Device := ⟨false, false, xfsImage 512 8 4⟩

/-- The probe result for `xfsMountsDev`. -/
def xfsMountsInfo : FSInfo :=
  { FSType := FSTypeXFS, TotalCapacity := 4096, FreeCapacity := 2048
    FSBlockSize := 512, Mounts := [] }

/-! ### Helper lemmas -/

/-- The post-seek EXT4 decoding step returns exactly one non-nil side. -/
lemma ext4DecodeFrom_wf (buf : List Nat) : wellFormed (ext4DecodeFrom buf) := by
  simp only [ext4DecodeFrom, wellFormed]
  split
  · exact Or.inr ⟨rfl, by simp⟩
  · split
    · exact Or.inl ⟨by simp, rfl⟩
    · exact Or.inr ⟨rfl, by simp⟩

/-- The post-seek XFS decoding step returns exactly one non-nil side. -/
lemma xfsDecodeFrom_wf (buf : List Nat) : wellFormed (xfsDecodeFrom buf) := by
  simp only [xfsDecodeFrom, wellFormed]
  split
  · exact Or.inr ⟨rfl, by simp⟩
  · split
    · exact Or.inl ⟨by simp, rfl⟩
    · exact Or.inr ⟨rfl, by simp⟩

/-- The EXT4 decoder returns exactly one non-nil side. -/
lemma probeFSEXT4_wf (d : Device) (lbs ob : Nat) :
    wellFormed (ProbeFSEXT4 d lbs ob) := by
  simp only [ProbeFSEXT4]
  split
  · exact Or.inr ⟨rfl, by simp⟩
  · split
    · exact Or.inr ⟨rfl, by simp⟩
    · split
      · exact Or.inr ⟨rfl, by simp⟩
      · exact ext4DecodeFrom_wf _

/-- The XFS decoder returns exactly one non-nil side. -/
lemma probeFSXFS_wf (d : Device) (lbs ob : Nat) :
    wellFormed (ProbeFSXFS d lbs ob) := by
  simp only [ProbeFSXFS]
  split
  · exact Or.inr ⟨rfl, by simp⟩
  · split
    · exact Or.inr ⟨rfl, by simp⟩
    · split
      · exact Or.inr ⟨rfl, by simp⟩
      · exact xfsDecodeFrom_wf _

/-- Exponent arithmetic of the EXT4 block-size derivation in the exact
range: no `uint32` wrap and no float overflow. -/
lemma ext4FsBlockSize_eq (log : Nat) (h : 10 + log ≤ 63) :
    ext4FsBlockSize log = 2 ^ (10 + log) := by
  have hm : (10 + log) % 2 ^ 32 = 10 + log := Nat.mod_eq_of_lt (by omega)
  simp only [ext4FsBlockSize, hm, if_pos h]

/-- Shape of every successful EXT4 probe result: it is the `FSInfo`
built from the decoded superblock of the probed bytes. -/
lemma probeFSEXT4_success (d : Device) (lbs ob : Nat) (info : FSInfo)
    (h : ProbeFSEXT4 d lbs ob = (some info, none)) :
    info =
      { FSType := FSTypeEXT4
        FSBlockSize := ext4FsBlockSize (decodeEXT4 (probedBytes d lbs ob)).LogBlockSize
        TotalCapacity := (decodeEXT4 (probedBytes d lbs ob)).NumBlocks *
          ext4FsBlockSize (decodeEXT4 (probedBytes d lbs ob)).LogBlockSize % 2 ^ 64
        FreeCapacity := (decodeEXT4 (probedBytes d lbs ob)).FreeBlocks *
          ext4FsBlockSize (decodeEXT4 (probedBytes d lbs ob)).LogBlockSize % 2 ^ 64
        Mounts := [] } := by
  simp only [ProbeFSEXT4] at h
  split at h
  · simp at h
  · split at h
    · simp at h
    · split at h
      · simp at h
      · simp only [ext4DecodeFrom] at h
        split at h
        · simp at h
        · split at h
          · simp only [Prod.mk.injEq, Option.some.injEq] at h
            exact h.1.symm
          · simp at h

/-- Shape of every successful XFS probe result: it is the `FSInfo`
built from the decoded superblock of the probed bytes. -/
lemma probeFSXFS_success (d : Device) (lbs ob : Nat) (info : FSInfo)
    (h : ProbeFSXFS d lbs ob = (some info, none)) :
    info =
      { FSType := FSTypeXFS
        FSBlockSize := (decodeXFS (probedBytes d lbs ob)).BlockSize
        TotalCapacity := (decodeXFS (probedBytes d lbs ob)).TotalBlocks *
          (decodeXFS (probedBytes d lbs ob)).BlockSize % 2 ^ 64
        FreeCapacity := (decodeXFS (probedBytes d lbs ob)).FreeBlocks *
          (decodeXFS (probedBytes d lbs ob)).BlockSize % 2 ^ 64
        Mounts := [] } := by
  simp only [ProbeFSXFS] at h
  split at h
  · simp at h
  · split at h
    · simp at h
    · split at h
      · simp at h
      · simp only [xfsDecodeFrom] at h
        split at h
        · simp at h
        · split at h
          · simp only [Prod.mk.injEq, Option.some.injEq] at h
            exact h.1.symm
          · simp at h

/-- A successful post-seek EXT4 decode carries no mounts. -/
lemma ext4DecodeFrom_mounts (buf : List Nat) (i : FSInfo)
    (h : (ext4DecodeFrom buf).1 = some i) : i.Mounts = [] := by
  simp only [ext4DecodeFrom] at h
  split at h
  · simp at h
  · split at h
    · simp only [Option.some.injEq] at h
      rw [← h]
    · simp at h

/-- A successful post-seek XFS decode carries no mounts. -/
lemma xfsDecodeFrom_mounts (buf : List Nat) (i : FSInfo)
    (h : (xfsDecodeFrom buf).1 = some i) : i.Mounts = [] := by
  simp only [xfsDecodeFrom] at h
  split at h
  · simp at h
  · split at h
    · simp only [Option.some.injEq] at h
      rw [← h]
    · simp at h

/-- A successful EXT4 probe carries no mounts. -/
lemma probeFSEXT4_mounts (d : Device) (lbs ob : Nat) (i : FSInfo)
    (h : (ProbeFSEXT4 d lbs ob).1 = some i) : i.Mounts = [] := by
  simp only [ProbeFSEXT4] at h
  split at h
  · simp at h
  · split at h
    · simp at h
    · split at h
      · simp at h
      · exact ext4DecodeFrom_mounts _ i h

/-- A successful XFS probe carries no mounts. -/
lemma probeFSXFS_mounts (d : Device) (lbs ob : Nat) (i : FSInfo)
    (h : (ProbeFSXFS d lbs ob).1 = some i) : i.Mounts = [] := by
  simp only [ProbeFSXFS] at h
  split at h
  · simp at h
  · split at h
    · simp at h
    · split at h
      · simp at h
      · exact xfsDecodeFrom_mounts _ i h

/-! ### The claims -/

/-- C1: for every device, logical block size and block offset, `ProbeFS`
attempts the EXT4 decoder first (the invocation trace is `[ext4]` or
`[ext4, xfs]`, never another order), and a successful EXT4 decode is
returned immediately with the XFS decoder never invoked. -/
theorem probe_ext4_before_xfs (d : Device) (lbs ob : Nat) :
    ((ProbeFSTrace d lbs ob).2 = [Decoder.ext4] ∨
      (ProbeFSTrace d lbs ob).2 = [Decoder.ext4, Decoder.xfs]) ∧
    ∀ info, ProbeFSEXT4 d lbs ob = (some info, none) →
      ProbeFSTrace d lbs ob = ((some info, none), [Decoder.ext4]) ∧
      ProbeFS d lbs ob = (some info, none) := by
  constructor
  · simp only [ProbeFSTrace]
    split
    · simp
    · split
      · simp
      · split
        · simp
        · split
          · simp
          · simp
  · intro info h
    constructor
    · simp [ProbeFSTrace, h]
    · simp [ProbeFS, h]

/-- C1 witness: on a device with a valid EXT4 superblock, the trace is
exactly `[ext4]` and `ProbeFS` returns the EXT4 result. -/
theorem probe_ext4_before_xfs_witness :
    ProbeFSTrace ext4FirstDev 0 0 = ((some ext4FirstInfo, none), [Decoder.ext4]) ∧
    ProbeFS ext4FirstDev 0 0 = (some ext4FirstInfo, none) :=
  (probe_ext4_before_xfs ext4FirstDev 0 0).2 ext4FirstInfo (by decide)

/-- C2: a hard (non-sentinel) decoder error is propagated by `ProbeFS`
unchanged and immediately: an EXT4 error other than `ErrNotEXT4` is
returned with the XFS decoder never invoked (trace `[ext4]`), and after a
soft EXT4 mismatch an XFS error other than `ErrNotXFS` is returned
unchanged; neither is converted into `ErrNoFS`. -/
theorem probe_propagates_hard_errors (d : Device) (lbs ob : Nat) :
    (∀ e, ProbeFSEXT4 d lbs ob = (none, some e) → e ≠ ErrNotEXT4 →
      ProbeFS d lbs ob = (none, some e) ∧
      ProbeFSTrace d lbs ob = ((none, some e), [Decoder.ext4])) ∧
    (∀ e, ProbeFSEXT4 d lbs ob = (none, some ErrNotEXT4) →
      ProbeFSXFS d lbs ob = (none, some e) → e ≠ ErrNotXFS →
      ProbeFS d lbs ob = (none, some e)) := by
  constructor
  · intro e h he
    constructor
    · simp [ProbeFS, h, he]
    · simp [ProbeFSTrace, h, he]
  · intro e h1 h2 he
    simp [ProbeFS, h1, h2, he]

/-- C2 witness: a failing `os.OpenFile` is surfaced as-is by `ProbeFS`
and the XFS decoder is not tried. -/
theorem probe_propagates_hard_errors_witness :
    ProbeFS openFailDev 0 0 = (none, some DevError.openError) ∧
    ProbeFSTrace openFailDev 0 0 = ((none, some DevError.openError), [Decoder.ext4]) :=
  (probe_propagates_hard_errors openFailDev 0 0).1 DevError.openError (by decide) (by decide)

/-- C3: when both decoders return their soft "not this format" sentinels,
`ProbeFS` returns the dedicated `ErrNoFS` value, which is distinct from
every device-access error. -/
theorem probe_no_fs_found (d : Device) (lbs ob : Nat)
    (h1 : ProbeFSEXT4 d lbs ob = (none, some ErrNotEXT4))
    (h2 : ProbeFSXFS d lbs ob = (none, some ErrNotXFS)) :
    ProbeFS d lbs ob = (none, some ErrNoFS) ∧
    ErrNoFS ≠ DevError.openError ∧ ErrNoFS ≠ DevError.seekError ∧
    ErrNoFS ≠ DevError.readError := by
  refine ⟨?_, by decide, by decide, by decide⟩
  simp [ProbeFS, h1, h2]

/-- C3 witness: a readable all-zero device matches neither format and
probes to `ErrNoFS`. -/
theorem probe_no_fs_found_witness :
    ProbeFS unknownDev 0 0 = (none, some ErrNoFS) ∧
    ErrNoFS ≠ DevError.openError ∧ ErrNoFS ≠ DevError.seekError ∧
    ErrNoFS ≠ DevError.readError :=
  probe_no_fs_found unknownDev 0 0 (by decide) (by decide)

/-- C4 counterexample: a validated EXT4 superblock with exponent 54
(`2 ^ 64` exceeds the `uint64` range) is decoded successfully, yet the
reported block size is not `2 ^ (10 + 54)`. -/
theorem ext4_blockSize_pow2_cex :
    ProbeFSEXT4 ext4OverflowDev 0 0 = (some ext4OverflowInfo, none) ∧
    (decodeEXT4 (probedBytes ext4OverflowDev 0 0)).LogBlockSize = 54 ∧
    ext4OverflowInfo.FSBlockSize ≠
      2 ^ (10 + (decodeEXT4 (probedBytes ext4OverflowDev 0 0)).LogBlockSize) := by
  refine ⟨by decide, by decide, by decide⟩

/-- C4 (amended): for every successfully validated EXT4 superblock whose
stored exponent satisfies `10 + logBlockSize ≤ 63` (so the block size
fits in `uint64`), the reported block size is exactly
`2 ^ (10 + logBlockSize)`. -/
theorem ext4_blockSize_pow2 (d : Device) (lbs ob : Nat) (info : FSInfo)
    (h : ProbeFSEXT4 d lbs ob = (some info, none))
    (hexp : 10 + (decodeEXT4 (probedBytes d lbs ob)).LogBlockSize ≤ 63) :
    info.FSBlockSize = 2 ^ (10 + (decodeEXT4 (probedBytes d lbs ob)).LogBlockSize) := by
  rw [probeFSEXT4_success d lbs ob info h]
  exact ext4FsBlockSize_eq _ hexp

/-- C4 witness: a superblock with exponent 2 reports block size
`2 ^ 12 = 4096`. -/
theorem ext4_blockSize_pow2_witness :
    ext4Log2Info.FSBlockSize =
      2 ^ (10 + (decodeEXT4 (probedBytes ext4Log2Dev 0 0)).LogBlockSize) ∧
    ext4Log2Info.FSBlockSize = 4096 :=
  ⟨ext4_blockSize_pow2 ext4Log2Dev 0 0 ext4Log2Info (by decide) (by decide), by decide⟩

/-- C5 counterexample: a validated XFS superblock with
`totalBlocks = 2 ^ 61` and `blockSize = 16` decodes successfully, yet the
reported total capacity is not `totalBlocks * blockSize = 2 ^ 65` (the
`uint64` product wraps to 0). -/
theorem xfs_capacity_overflow_cex :
    ProbeFSXFS xfsOverflowDev 0 0 = (some xfsOverflowInfo, none) ∧
    (decodeXFS (probedBytes xfsOverflowDev 0 0)).TotalBlocks = 2 ^ 61 ∧
    (decodeXFS (probedBytes xfsOverflowDev 0 0)).BlockSize = 16 ∧
    xfsOverflowInfo.TotalCapacity ≠
      (decodeXFS (probedBytes xfsOverflowDev 0 0)).TotalBlocks *
        (decodeXFS (probedBytes xfsOverflowDev 0 0)).BlockSize := by
  refine ⟨by decide, by decide, by decide, by decide⟩

/-- C5 (amended): every successfully validated XFS superblock reports the
directly stored block size (no log2 derivation), and capacities equal to
the block-count × block-size products reduced modulo `2 ^ 64` — hence the
exact products whenever these fit in `uint64`. -/
theorem xfs_capacity_fields (d : Device) (lbs ob : Nat) (info : FSInfo)
    (h : ProbeFSXFS d lbs ob = (some info, none)) :
    info.FSBlockSize = (decodeXFS (probedBytes d lbs ob)).BlockSize ∧
    info.TotalCapacity = (decodeXFS (probedBytes d lbs ob)).TotalBlocks *
      (decodeXFS (probedBytes d lbs ob)).BlockSize % 2 ^ 64 ∧
    info.FreeCapacity = (decodeXFS (probedBytes d lbs ob)).FreeBlocks *
      (decodeXFS (probedBytes d lbs ob)).BlockSize % 2 ^ 64 ∧
    ((decodeXFS (probedBytes d lbs ob)).TotalBlocks *
        (decodeXFS (probedBytes d lbs ob)).BlockSize < 2 ^ 64 →
      info.TotalCapacity = (decodeXFS (probedBytes d lbs ob)).TotalBlocks *
        (decodeXFS (probedBytes d lbs ob)).BlockSize) ∧
    ((decodeXFS (probedBytes d lbs ob)).FreeBlocks *
        (decodeXFS (probedBytes d lbs ob)).BlockSize < 2 ^ 64 →
      info.FreeCapacity = (decodeXFS (probedBytes d lbs ob)).FreeBlocks *
        (decodeXFS (probedBytes d lbs ob)).BlockSize) := by
  rw [probeFSXFS_success d lbs ob info h]
  refine ⟨rfl, rfl, rfl, ?_, ?_⟩
  · intro hlt
    exact Nat.mod_eq_of_lt hlt
  · intro hlt
    exact Nat.mod_eq_of_lt hlt

/-- C5 witness: stored `blockSize = 4096` with `totalBlocks = 1000`
reports `totalCapacityBytes = 4096000`. -/
theorem xfs_capacity_fields_witness :
    (xfsSampleInfo.FSBlockSize = (decodeXFS (probedBytes xfsSampleDev 0 0)).BlockSize ∧
      xfsSampleInfo.TotalCapacity = (decodeXFS (probedBytes xfsSampleDev 0 0)).TotalBlocks *
        (decodeXFS (probedBytes xfsSampleDev 0 0)).BlockSize % 2 ^ 64) ∧
    xfsSampleInfo.FSBlockSize = 4096 ∧ xfsSampleInfo.TotalCapacity = 4096000 := by
  have h := xfs_capacity_fields xfsSampleDev 0 0 xfsSampleInfo (by decide)
  exact ⟨⟨h.1, h.2.1⟩, by decide, by decide⟩

/-- C6: a device image with fewer bytes than the fixed superblock
structure at the probed offset makes each decoder fail with the hard
truncated-read error, which is distinct from the soft sentinels, so the
dispatcher propagates it instead of advancing to the next decoder. -/
theorem truncated_read_hard_error (d : Device) (lbs ob : Nat)
    (ho : d.openFails = false) (hs : d.seekFails = false)
    (hpos : 0 ≤ seekTarget lbs ob) :
    ((probedBytes d lbs ob).length < ext4SuperBlockSize →
      ProbeFSEXT4 d lbs ob = (none, some DevError.readError) ∧
      DevError.readError ≠ ErrNotEXT4 ∧
      ProbeFS d lbs ob = (none, some DevError.readError)) ∧
    ((probedBytes d lbs ob).length < xfsSuperBlockSize →
      ProbeFSXFS d lbs ob = (none, some DevError.readError) ∧
      DevError.readError ≠ ErrNotXFS) := by
  have hneg : ¬ seekTarget lbs ob < 0 := not_lt.mpr hpos
  constructor
  · intro hlen
    have hext : ProbeFSEXT4 d lbs ob = (none, some DevError.readError) := by
      simp [ProbeFSEXT4, ho, hs, hneg, ext4DecodeFrom, hlen]
    refine ⟨hext, by decide, ?_⟩
    simp [ProbeFS, hext, ErrNotEXT4]
  · intro hlen
    refine ⟨?_, by decide⟩
    simp [ProbeFSXFS, ho, hs, hneg, xfsDecodeFrom, hlen]

/-- C6 witness: a 10-byte device yields the truncated-read error from the
EXT4 decoder and from `ProbeFS`, not a "not this format" sentinel. -/
theorem truncated_read_hard_error_witness :
    ProbeFSEXT4 shortDev 0 0 = (none, some DevError.readError) ∧
    DevError.readError ≠ ErrNotEXT4 ∧
    ProbeFS shortDev 0 0 = (none, some DevError.readError) :=
  (truncated_read_hard_error shortDev 0 0 (by decide) (by decide) (by decide)).1 (by decide)

/-- C7 counterexample: for `logicalBlockSize = offsetBlocks = 2 ^ 32` the
product is `2 ^ 64`, but the seek position is 0 — there the decoder
happily reads a 58-byte device at offset 0 (a forward seek of `2 ^ 64`
bytes could never decode it) — and a product of `2 ^ 63` wraps to a
negative offset that makes the seek fail. -/
theorem seek_offset_exact_cex :
    (2 ^ 32) * (2 ^ 32) = 2 ^ 64 ∧
    seekTarget (2 ^ 32) (2 ^ 32) = 0 ∧
    seekTarget (2 ^ 32) (2 ^ 32) ≠ ((2 ^ 32 * 2 ^ 32 : Nat) : Int) ∧
    seekWrapDev.bytes.length = 58 ∧
    ProbeFSEXT4 seekWrapDev (2 ^ 32) (2 ^ 32) = (some seekWrapInfo, none) ∧
    seekTarget (2 ^ 63) 1 = -(2 ^ 63) ∧
    ProbeFSEXT4 seekWrapDev (2 ^ 63) 1 = (none, some DevError.seekError) := by
  refine ⟨by decide, by decide, by decide, by decide, by decide, by decide, by decide⟩

/-- C7 (amended): whenever `logicalBlockSize * offsetBlocks < 2 ^ 63`
(the product fits a signed 64-bit seek offset), each decoder seeks
forward exactly that many bytes from the current position and reads the
superblock structure there. -/
theorem seek_offset_exact (d : Device) (lbs ob : Nat) (h : lbs * ob < 2 ^ 63) :
    seekTarget lbs ob = (lbs * ob : Nat) ∧
    probedBytes d lbs ob = d.bytes.drop (lbs * ob) ∧
    (d.openFails = false → d.seekFails = false →
      ProbeFSEXT4 d lbs ob = ext4DecodeFrom (d.bytes.drop (lbs * ob)) ∧
      ProbeFSXFS d lbs ob = xfsDecodeFrom (d.bytes.drop (lbs * ob))) := by
  have hmod : lbs * ob % 2 ^ 64 = lbs * ob := Nat.mod_eq_of_lt (by omega)
  have hst : seekTarget lbs ob = (lbs * ob : Nat) := by
    simp only [seekTarget, hmod, if_pos h]
  have hpb : probedBytes d lbs ob = d.bytes.drop (lbs * ob) := by
    simp only [probedBytes, hst, Int.toNat_natCast]
  have hneg : ¬ seekTarget lbs ob < 0 := by
    rw [hst]
    exact not_lt.mpr (Int.natCast_nonneg _)
  refine ⟨hst, hpb, fun ho hs => ⟨?_, ?_⟩⟩
  · simp [ProbeFSEXT4, ho, hs, hneg, hpb]
  · simp [ProbeFSXFS, ho, hs, hneg, hpb]

/-- C7 witness: with `logicalBlockSize = 3` and `offsetBlocks = 5` both
decoders read at byte offset 15. -/
theorem seek_offset_exact_witness :
    seekTarget 3 5 = ((3 * 5 : Nat) : Int) ∧
    probedBytes seekSmallDev 3 5 = seekSmallDev.bytes.drop (3 * 5) ∧
    ProbeFSEXT4 seekSmallDev 3 5 = ext4DecodeFrom (seekSmallDev.bytes.drop (3 * 5)) ∧
    ProbeFSXFS seekSmallDev 3 5 = xfsDecodeFrom (seekSmallDev.bytes.drop (3 * 5)) := by
  have h := seek_offset_exact seekSmallDev 3 5 (by decide)
  exact ⟨h.1, h.2.1, (h.2.2 rfl rfl).1, (h.2.2 rfl rfl).2⟩

/-- C8: every `FSInfo` constructed by the EXT4 decoder, the XFS decoder
or `ProbeFS` has an empty mounts list at construction time. -/
theorem mounts_empty_at_construction (d : Device) (lbs ob : Nat) :
    (∀ i, (ProbeFSEXT4 d lbs ob).1 = some i → i.Mounts = []) ∧
    (∀ i, (ProbeFSXFS d lbs ob).1 = some i → i.Mounts = []) ∧
    (∀ i, (ProbeFS d lbs ob).1 = some i → i.Mounts = []) := by
  refine ⟨fun i h => probeFSEXT4_mounts d lbs ob i h,
    fun i h => probeFSXFS_mounts d lbs ob i h, fun i h => ?_⟩
  simp only [ProbeFS] at h
  split at h
  · simp at h
  · split at h
    · exact probeFSEXT4_mounts d lbs ob i h
    · split at h
      · simp at h
      · split at h
        · exact probeFSXFS_mounts d lbs ob i h
        · simp at h

/-- C8 witness: the `FSInfo` probed from a concrete XFS device has no
mounts. -/
theorem mounts_empty_at_construction_witness :
    xfsMountsInfo.Mounts = [] :=
  (mounts_empty_at_construction xfsMountsDev 0 0).2.1 xfsMountsInfo (by decide)

/-- C9: the magic registry assigns the shared value `0xEF53` to the EXT2,
EXT3 and EXT4 entries (so the lookup of `0xef53` is non-empty and shared
by exactly those three), and the XFS entry carries `0x58465342`, the
numeric form of the 4-byte ASCII signature "XFSB". -/
theorem magic_registry_values :
    magicLookup 0xEF53 ≠ [] ∧
    magicLookup 0xEF53 = ["EXT2_SUPER_MAGIC", "EXT3_SUPER_MAGIC", "EXT4_SUPER_MAGIC"] ∧
    magicValueOf "EXT2_SUPER_MAGIC" = some 0xEF53 ∧
    magicValueOf "EXT3_SUPER_MAGIC" = some 0xEF53 ∧
    magicValueOf "EXT4_SUPER_MAGIC" = some 0xEF53 ∧
    magicValueOf "XFS_SUPER_MAGIC" = some 0x58465342 ∧
    asciiMagic 'X' 'F' 'S' 'B' = 0x58465342 := by
  refine ⟨by decide, by decide, by decide, by decide, by decide, by decide, by decide⟩

/-- C10: each of `ProbeFSEXT4`, `ProbeFSXFS` and `ProbeFS` always returns
exactly one non-nil side — a result xor an error, never both, never
neither. -/
theorem result_exclusive (d : Device) (lbs ob : Nat) :
    wellFormed (ProbeFSEXT4 d lbs ob) ∧ wellFormed (ProbeFSXFS d lbs ob) ∧
    wellFormed (ProbeFS d lbs ob) := by
  refine ⟨probeFSEXT4_wf d lbs ob, probeFSXFS_wf d lbs ob, ?_⟩
  simp only [ProbeFS, wellFormed]
  split
  · next h => exact Or.inr ⟨rfl, h.1⟩
  · split
    · next h2 => exact Or.inl ⟨h2, rfl⟩
    · split
      · next h3 => exact Or.inr ⟨rfl, h3.1⟩
      · split
        · next h4 => exact Or.inl ⟨h4, rfl⟩
        · exact Or.inr ⟨rfl, by simp⟩

end DirectCSI
